import Mathlib

/-!
Verification development for the quiz-generator repository.

The Python sources embedded here are:
  * `src/app.py`      — `format_quiz`, `create_quiz`, the inline `generate`,
                        and the Submit-Quiz scoring block;
  * `src/providers/hf.py`     — the Hugging Face `generate` client;
  * `src/providers/gemini.py` — the Gemini `generate` client.

Modelling conventions:
  * Characters are treated at the ASCII level: `str.strip`, `str.upper`,
    `str.lower` and the regex character classes (`\d`, `[A-Da-d]`) are
    modelled over their ASCII ranges (the repository only manipulates
    ASCII markers and labels).
  * `json.loads` is modelled by the fueled recursive-descent decoder
    `jsonLoads` below.  JSON numbers are modelled as integers; payloads
    containing fractional or exponent literals, `NaN`/`Infinity`, or lone
    surrogate escapes are outside the model (treated as undecodable).
  * Python exceptions are modelled by explicit result constructors.
-/

namespace QuizGen

/-- ASCII whitespace stripped by Python `str.strip()`. -/
def isPyWs (c : Char) : Bool :=
  c == ' ' || c == '\t' || c == '\n' || c == '\r' || c == '\x0b' || c == '\x0c'

/-- JSON whitespace accepted by `json.loads` between tokens. -/
def isJsonWs (c : Char) : Bool :=
  c == ' ' || c == '\t' || c == '\n' || c == '\r'

/-- Python `str.strip()` on a character list: drop ASCII whitespace at both ends. -/
def stripList (cs : List Char) : List Char :=
  ((cs.dropWhile isPyWs).reverse.dropWhile isPyWs).reverse

/-- Python `str.strip()`. -/
def pyStrip (s : String) : String :=
  String.mk (stripList s.toList)

/-- ASCII `str.upper()` on one character (as applied by Python to ASCII text). -/
def pyUpperChar (c : Char) : Char :=
  if 97 ≤ c.toNat && c.toNat ≤ 122 then Char.ofNat (c.toNat - 32) else c

/-- ASCII `str.lower()` on one character. -/
def pyLowerChar (c : Char) : Char :=
  if 65 ≤ c.toNat && c.toNat ≤ 90 then Char.ofNat (c.toNat + 32) else c

/-- Python substring containment `needle in hay` on character lists. -/
def containsSub (needle : List Char) : List Char → Bool
  | [] => needle.isEmpty
  | c :: rest => needle.isPrefixOf (c :: rest) || containsSub needle rest

/-- Python `s.split("\n")` on a character list: split at every newline. -/
def splitNl : List Char → List (List Char)
  | [] => [[]]
  | c :: rest =>
    if c == '\n' then [] :: splitNl rest
    else
      match splitNl rest with
      | [] => [[c]]
      | seg :: segs => (c :: seg) :: segs

/-- The JSON values produced by the modelled `json.loads` (numbers as integers). -/
inductive Json where
  | null
  | bool (b : Bool)
  | num (n : Int)
  | str (s : String)
  | arr (xs : List Json)
  | obj (fields : List (String × Json))

/-- Is the value a JSON array (a Python `list`)? -/
def Json.isArr : Json → Bool
  | .arr _ => true
  | _ => false

/-- Python `dict` lookup.  The parser deduplicates keys on insertion, so a
plain first-match lookup models `d[k]` / `k in d`. -/
def objGet (fields : List (String × Json)) (key : String) : Option Json :=
  (fields.find? (fun p => p.1 == key)).map (fun p => p.2)

/-- `dict` insertion as performed while decoding a JSON object: a repeated key
replaces the value in place, a new key is appended. -/
def insertField (fields : List (String × Json)) (key : String) (v : Json) :
    List (String × Json) :=
  match fields with
  | [] => [(key, v)]
  | (k, w) :: rest =>
    if k == key then (key, v) :: rest else (k, w) :: insertField rest key v

/-- Python truthiness of a decoded JSON value (`if not quiz_data`). -/
def pyFalsy : Json → Bool
  | .null => true
  | .bool b => !b
  | .num n => n == 0
  | .str s => s == ""
  | .arr xs => xs.isEmpty
  | .obj fs => fs.isEmpty

/-- ASCII decimal digit. -/
def isDigitC (c : Char) : Bool :=
  decide (48 ≤ c.toNat) && decide (c.toNat ≤ 57)

/-- Hex digit value for `\uXXXX` escapes. -/
def hexVal (c : Char) : Option Nat :=
  if isDigitC c then some (c.toNat - 48)
  else if decide (97 ≤ c.toNat) && decide (c.toNat ≤ 102) then some (c.toNat - 87)
  else if decide (65 ≤ c.toNat) && decide (c.toNat ≤ 70) then some (c.toNat - 55)
  else none

/-- Skip JSON whitespace. -/
def skipWs (cs : List Char) : List Char :=
  cs.dropWhile isJsonWs

/-- Decode the body of a JSON string literal (opening quote already consumed).
Returns the decoded characters and the rest of the input.  Lone surrogate
escapes are rejected (they are not representable as Lean characters). -/
def parseStrChars : Nat → List Char → Option (List Char × List Char)
  | 0, _ => none
  | _, [] => none
  | fuel + 1, c :: rest =>
    if c == '"' then some ([], rest)
    else if c == '\\' then
      match rest with
      | [] => none
      | e :: rest2 =>
        if e == 'u' then
          match rest2 with
          | h1 :: h2 :: h3 :: h4 :: rest3 =>
            match hexVal h1, hexVal h2, hexVal h3, hexVal h4 with
            | some n1, some n2, some n3, some n4 =>
              let code := ((n1 * 16 + n2) * 16 + n3) * 16 + n4
              if decide (55296 ≤ code) && decide (code ≤ 57343) then none
              else
                match parseStrChars fuel rest3 with
                | some (tail, r) => some (Char.ofNat code :: tail, r)
                | none => none
            | _, _, _, _ => none
          | _ => none
        else
          let esc : Option Char :=
            if e == '"' then some '"'
            else if e == '\\' then some '\\'
            else if e == '/' then some '/'
            else if e == 'b' then some '\x08'
            else if e == 'f' then some '\x0c'
            else if e == 'n' then some '\n'
            else if e == 'r' then some '\r'
            else if e == 't' then some '\t'
            else none
          match esc with
          | none => none
          | some ch =>
            match parseStrChars fuel rest2 with
            | some (tail, r) => some (ch :: tail, r)
            | none => none
    else if decide (c.toNat < 32) then none
    else
      match parseStrChars fuel rest with
      | some (tail, r) => some (c :: tail, r)
      | none => none

/-- Decode a JSON integer literal starting at the given input (leading `-`
allowed).  Fractional and exponent continuations are rejected (model scope). -/
def parseNum (cs : List Char) : Option (Int × List Char) :=
  let (neg, cs1) :=
    match cs with
    | '-' :: rest => (true, rest)
    | _ => (false, cs)
  let ds := cs1.takeWhile isDigitC
  let rest := cs1.drop ds.length
  if ds.isEmpty then none
  else if ds.length > 1 && ds.headD '0' == '0' then none
  else
    match rest with
    | '.' :: _ => none
    | 'e' :: _ => none
    | 'E' :: _ => none
    | _ =>
      let n : Nat := ds.foldl (fun acc c => acc * 10 + (c.toNat - 48)) 0
      some (if neg then -(n : Int) else (n : Int), rest)

mutual

/-- Decode one JSON value (after skipping leading whitespace). -/
def parseVal : Nat → List Char → Option (Json × List Char)
  | 0, _ => none
  | fuel + 1, cs =>
    match skipWs cs with
    | [] => none
    | c :: rest =>
      if c == 'n' then
        match rest with
        | 'u' :: 'l' :: 'l' :: r => some (.null, r)
        | _ => none
      else if c == 't' then
        match rest with
        | 'r' :: 'u' :: 'e' :: r => some (.bool true, r)
        | _ => none
      else if c == 'f' then
        match rest with
        | 'a' :: 'l' :: 's' :: 'e' :: r => some (.bool false, r)
        | _ => none
      else if c == '"' then
        match parseStrChars (fuel + 1) rest with
        | some (chars, r) => some (.str (String.mk chars), r)
        | none => none
      else if c == '[' then
        match skipWs rest with
        | ']' :: r => some (.arr [], r)
        | _ => parseArrItems fuel rest []
      else if c == '{' then
        match skipWs rest with
        | '}' :: r => some (.obj [], r)
        | _ => parseObjItems fuel rest []
      else if c == '-' || isDigitC c then
        match parseNum (c :: rest) with
        | some (n, r) => some (.num n, r)
        | none => none
      else none

/-- Decode the remaining items of a non-empty JSON array. -/
def parseArrItems : Nat → List Char → List Json → Option (Json × List Char)
  | 0, _, _ => none
  | fuel + 1, cs, acc =>
    match parseVal fuel cs with
    | none => none
    | some (v, r) =>
      match skipWs r with
      | ',' :: r2 => parseArrItems fuel r2 (v :: acc)
      | ']' :: r2 => some (.arr (v :: acc).reverse, r2)
      | _ => none

/-- Decode the remaining members of a non-empty JSON object. -/
def parseObjItems : Nat → List Char → List (String × Json) →
    Option (Json × List Char)
  | 0, _, _ => none
  | fuel + 1, cs, acc =>
    match skipWs cs with
    | '"' :: r =>
      match parseStrChars fuel r with
      | none => none
      | some (kchars, r2) =>
        match skipWs r2 with
        | ':' :: r3 =>
          match parseVal fuel r3 with
          | none => none
          | some (v, r4) =>
            let acc2 := insertField acc (String.mk kchars) v
            match skipWs r4 with
            | ',' :: r5 => parseObjItems fuel r5 acc2
            | '}' :: r5 => some (.obj acc2, r5)
            | _ => none
        | _ => none
    | _ => none

end

/-- Model of Python `json.loads`: decode one value, require only whitespace to
follow (otherwise Python raises "Extra data"), fail on anything malformed. -/
def jsonLoads (s : String) : Option Json :=
  match parseVal (4 * s.length + 16) s.toList with
  | some (v, rest) => if (skipWs rest).isEmpty then some v else none
  | none => none

/-!
## Quiz Normalizer (`src/app.py`, `format_quiz` / `create_quiz`)
-/

/-- One of `:`, `.`, `-` — the character class `[:.-]` closing the question
marker `Q\d+[:.-]` of `format_quiz`'s `re.split`. -/
def isPunctQ (c : Char) : Bool :=
  c == ':' || c == '.' || c == '-'

/-- `Q` or `q` (the split pattern is compiled with `re.IGNORECASE`). -/
def isQMark (c : Char) : Bool :=
  c == 'Q' || c == 'q'

/-- Single-pass scanner realising
`re.split(r"(?:Q\d+[:.-])", raw_text, flags=re.IGNORECASE)`.

`acc` holds the current segment reversed; when a `[:.-]` character is reached
whose immediately preceding characters in the current segment are one or more
digits preceded by `Q`/`q`, the matched marker is removed and a new segment
starts.  Candidate matches of `Q\d+[:.-]` are pairwise disjoint (the interior
of a match is all digits), so this retro-detection produces exactly the
leftmost non-overlapping matches that `re.split` uses. -/
def splitQGo (acc : List Char) (done : List (List Char)) :
    List Char → List (List Char)
  | [] => (acc.reverse :: done).reverse
  | c :: rest =>
    if isPunctQ c then
      let ds := acc.takeWhile isDigitC
      if !ds.isEmpty && isQMark ((acc.drop ds.length).headD ' ') then
        splitQGo [] ((acc.drop (ds.length + 1)).reverse :: done) rest
      else splitQGo (c :: acc) done rest
    else splitQGo (c :: acc) done rest

/-- `re.split(r"(?:Q\d+[:.-])", raw_text, flags=re.IGNORECASE)`. -/
def splitQ (cs : List Char) : List (List Char) :=
  splitQGo [] [] cs

/-- `re.match(r"^[A-Da-d][).]", line)`: first character a letter `A`–`D` in
either case, second character `)` or `.`. -/
def isOptionLine (l : List Char) : Bool :=
  match l with
  | a :: b :: _ =>
    ((decide (65 ≤ a.toNat) && decide (a.toNat ≤ 68)) ||
     (decide (97 ≤ a.toNat) && decide (a.toNat ≤ 100))) &&
    (b == ')' || b == '.')
  | _ => false

/-- `"answer" in line.lower()`. -/
def containsAnswer (l : List Char) : Bool :=
  containsSub "answer".toList (l.map pyLowerChar)

/-- The per-segment body of `format_quiz`'s regex loop: skip a segment whose
strip is empty, split into stripped non-empty lines, take the first line as
the question, the later lines matching the option pattern as options, and the
first line containing "answer" (default `"Answer: Not provided"`) as the
answer; package them as the Python dict the source appends. -/
def parsePart (part : List Char) : Option Json :=
  if (stripList part).isEmpty then none
  else
    let lines := ((splitNl part).map stripList).filter (fun l => !l.isEmpty)
    match lines with
    | [] => none
    | q :: restLines =>
      let options := restLines.filter isOptionLine
      let answer := ((lines.find? containsAnswer).getD "Answer: Not provided".toList)
      some (.obj
        [("question", .str (String.mk q)),
         ("options", .arr (options.map (fun o => .str (String.mk o)))),
         ("answer", .str (String.mk answer))])

/-- The tolerant pattern path of `format_quiz` (its regex-parsing loop). -/
def tolerantParse (raw : String) : List Json :=
  (splitQ raw.toList).filterMap parsePart

/-- Does `raw_text.strip()` start with `[` or `{` (the guard that triggers the
strict JSON path of `format_quiz`)? -/
def jsonCandidate (raw : String) : Bool :=
  match stripList raw.toList with
  | '[' :: _ => true
  | '{' :: _ => true
  | _ => false

/-- `format_quiz` (src/app.py lines 82–117).  On the strict JSON path a
decoded list is returned as is and a decoded dict's `questions` value is
returned as is (whatever its shape); any decode failure, or a decoded value
that is neither a list nor a dict with a `questions` key, falls through to the
tolerant pattern path.  The Python function returns a Python value of any
shape, modelled as `Json`. -/
def format_quiz (raw : String) : Json :=
  if jsonCandidate raw then
    match jsonLoads raw with
    | some (.arr xs) => .arr xs
    | some (.obj fs) =>
      match objGet fs "questions" with
      | some v => v
      | none => .arr (tolerantParse raw)
    | some _ => .arr (tolerantParse raw)
    | none => .arr (tolerantParse raw)
  else .arr (tolerantParse raw)

/-- The normalization pipeline of the spec's §4.3: `format_quiz` followed by
the truncation `quiz_data[:num_questions]` performed by `create_quiz`
(src/app.py line 142).  `none` covers the shapes on which the Python slicing
would fail (the `questions` value was not a list). -/
def normalize (raw : String) (count : Nat) : Option (List Json) :=
  match format_quiz raw with
  | .arr qs => some (qs.take count)
  | _ => none

/-- Result of running `create_quiz`'s post-`generate` body. -/
inductive PyResult where
  | ok (v : Json)
  | hfError (msg : String)
  | typeError

/-- `create_quiz` after a successful `generate` call returned `raw`
(src/app.py lines 134–145): raise `HFError` when `format_quiz`'s result is
falsy, otherwise return it sliced to `num_questions`.  Slicing a non-list,
non-string truthy value raises an uncaught `TypeError`. -/
def create_quiz_from_raw (raw : String) (num_questions : Nat) : PyResult :=
  let quiz_data := format_quiz raw
  if pyFalsy quiz_data then .hfError "AI-generated quiz was empty or invalid."
  else
    match quiz_data with
    | .arr qs => .ok (.arr (qs.take num_questions))
    | .str s => .ok (.str (String.mk (s.toList.take num_questions)))
    | _ => .typeError

/-- What the Streamlit orchestrator shows for one generate action. -/
inductive QuizOutcome where
  | success (quiz : Json)
  | errorShown (msg : String)
  | crash

/-- The generate-button handler (src/app.py lines 167–174): `HFError` is
caught and rendered with `st.error`, success stores the quiz, anything else
escapes the `except HFError` clause. -/
def generate_action (raw : String) (num_questions : Nat) : QuizOutcome :=
  match create_quiz_from_raw raw num_questions with
  | .ok v => .success v
  | .hfError m => .errorShown ("❌ Failed to generate quiz: " ++ m)
  | .typeError => .crash


/-!
## Backend clients (`src/providers/hf.py`, `src/providers/gemini.py`,
and the inline `generate` of `src/app.py`)
-/

/-- Python `repr` of a string, as it appears inside `str(data)` of a decoded
payload (approximated: single quotes, with backslashes and quotes escaped). -/
def pyReprStr (s : String) : String :=
  let body := s.toList.foldr
    (fun c acc =>
      if c == '\\' then '\\' :: '\\' :: acc
      else if c == '\'' then '\\' :: '\'' :: acc
      else c :: acc) []
  "'" ++ String.mk body ++ "'"

/-- Python `str()` / `repr()` of a decoded JSON payload (`str(data)` fallback
of `generate`): `None`/`True`/`False`, decimal integers, quoted strings,
bracketed lists and braced dicts with `", "` separators. -/
def pyRepr : Json → String
  | .null => "None"
  | .bool true => "True"
  | .bool false => "False"
  | .num n => toString n
  | .str s => pyReprStr s
  | .arr xs =>
    "[" ++ String.intercalate ", " (xs.attach.map (fun x => pyRepr x.1)) ++ "]"
  | .obj fs =>
    "\x7b" ++
      String.intercalate ", "
        (fs.attach.map (fun p => pyReprStr p.1.1 ++ ": " ++ pyRepr p.1.2)) ++
    "\x7d"
decreasing_by
  · have := List.sizeOf_lt_of_mem x.2; simp at this ⊢; omega
  · have h := List.sizeOf_lt_of_mem p.2
    obtain ⟨⟨k, v⟩, hp⟩ := p
    simp at h ⊢
    omega

/-- Python `str()` of a decoded value: strings print bare, everything else as
its `repr`. -/
def pyStrOf : Json → String
  | .str s => s
  | v => pyRepr v

/-- The HTTP POST request `generate` issues (URL, `Authorization` header,
`inputs` body). -/
structure HTTPRequest where
  url : String
  auth : String
  inputs : String

/-- What the transport returns for one attempt: a status code together with
the result of `response.json()` (`none` models a body that is not JSON), or a
raised `requests.exceptions.RequestException`. -/
structure HTTPResponse where
  status : Nat
  body : Option Json

/-- One transport outcome. -/
inductive TransportReply where
  | response (r : HTTPResponse)
  | exception (msg : String)

/-- Outcome of a `generate` call. -/
inductive GenResult where
  | ok (payload : Json)
  | hfError (msg : String)
  | geminiError (msg : String)
  | pyError (msg : String)

/-- The request built by both Hugging Face `generate` functions. -/
def hfRequest (prompt hf_token model_id : String) : HTTPRequest :=
  { url := "https://api-inference.huggingface.co/models/" ++ model_id
    auth := "Bearer " ++ hf_token
    inputs := prompt }

/-- The `est_time` string of the 503 branch: `data["estimated_time"]`
formatted with `:.1f` when the body is a dict holding a number under that key
(`f"{n:.1f}"` of an integer is `"n.0"`, of a bool `"1.0"`/`"0.0"`); every
failure inside the `try` (no JSON body, no such key, unformattable value) is
swallowed by the bare `except` and leaves `"unknown"`. -/
def estTimeStr (body : Option Json) : String :=
  match body with
  | some (.obj fs) =>
    match objGet fs "estimated_time" with
    | some (.num n) => toString n ++ ".0"
    | some (.bool true) => "1.0"
    | some (.bool false) => "0.0"
    | _ => "unknown"
  | _ => "unknown"

/-- The `HFError` message raised on a 503 status. -/
def hfLoadingMsg (body : Option Json) : String :=
  "Model is loading. Please try again in " ++ estTimeStr body ++ " seconds."

/-- Python `key in x` for a decoded payload element: key lookup on a dict,
substring test on a string, membership on a list (only a string element can
equal the key), `TypeError` (`none`) otherwise. -/
def pyContains (x : Json) (key : String) : Option Bool :=
  match x with
  | .obj fs => some (objGet fs key).isSome
  | .str s => some (containsSub key.toList s.toList)
  | .arr xs =>
    some (xs.any (fun y => match y with | .str s => s == key | _ => false))
  | _ => none

/-- Payload interpretation of `src/providers/hf.py` lines 49–67, applied to a
successfully decoded non-503, non-error-status body. -/
def processBodyHf (data : Json) : GenResult :=
  match data with
  | .obj fs =>
    match objGet fs "error" with
    | some v => .hfError (pyStrOf v)
    | none =>
      match objGet fs "generated_text" with
      | some v => .ok v
      | none => .ok (.str (pyRepr data))
  | .arr [] => .ok (.str (pyRepr data))
  | .arr (x :: _) =>
    match pyContains x "generated_text" with
    | none => .pyError "TypeError: argument of type is not iterable"
    | some true =>
      match x with
      | .obj fs2 => .ok ((objGet fs2 "generated_text").getD .null)
      | _ => .pyError "TypeError: indices must be integers"
    | some false =>
      match x with
      | .obj fs2 =>
        match objGet fs2 "label" with
        | some _ => .ok (.str (pyRepr x))
        | none => .ok (.str (pyRepr data))
      | _ => .ok (.str (pyRepr data))
  | _ => .ok (.str (pyRepr data))

/-- Payload interpretation of the inline `generate` of `src/app.py`
lines 62–76 (`generated_text`, then the DialoGPT `conversation` shape). -/
def processBodyApp (data : Json) : GenResult :=
  match data with
  | .obj fs =>
    match objGet fs "error" with
    | some v => .hfError (pyStrOf v)
    | none =>
      match objGet fs "generated_text" with
      | some v => .ok v
      | none => .ok (.str (pyRepr data))
  | .arr [] => .ok (.str (pyRepr data))
  | .arr (x :: _) =>
    match pyContains x "generated_text" with
    | none => .pyError "TypeError: argument of type is not iterable"
    | some true =>
      match x with
      | .obj fs2 => .ok ((objGet fs2 "generated_text").getD .null)
      | _ => .pyError "TypeError: indices must be integers"
    | some false =>
      match pyContains x "conversation" with
      | none => .pyError "TypeError: argument of type is not iterable"
      | some true =>
        match x with
        | .obj fs2 =>
          match objGet fs2 "conversation" with
          | some (.obj fs3) =>
            match objGet fs3 "generated_responses" with
            | some (.arr (y :: _)) => .ok y
            | some (.arr []) => .pyError "IndexError: list index out of range"
            | _ => .pyError "TypeError: not subscriptable"
          | _ => .pyError "TypeError: not subscriptable"
        | _ => .pyError "TypeError: indices must be integers"
      | some false => .ok (.str (pyRepr data))
  | _ => .ok (.str (pyRepr data))

/-- Shared skeleton of both Hugging Face `generate` functions: build the
request, perform exactly one transport attempt, map a 503 status to the
"model is loading" `HFError`, map `raise_for_status` (status ≥ 400) and a
non-JSON body (`requests` raises its own `JSONDecodeError`, a
`RequestException`) to the `Request failed:` `HFError`, then interpret the
payload.  The returned list records the requests issued. -/
def hfGenerateWith (interpret : Json → GenResult)
    (prompt hf_token model_id : String)
    (transport : Nat → HTTPRequest → TransportReply) :
    GenResult × List HTTPRequest :=
  let req := hfRequest prompt hf_token model_id
  let result :=
    match transport 0 req with
    | .exception e => .hfError ("Request failed: " ++ e)
    | .response r =>
      if r.status == 503 then .hfError (hfLoadingMsg r.body)
      else if decide (400 ≤ r.status) then
        .hfError ("Request failed: status " ++ toString r.status)
      else
        match r.body with
        | none => .hfError "Request failed: response body is not JSON"
        | some data => interpret data
  (result, [req])

/-- `generate` of `src/providers/hf.py`.  Note that the credential is only
placed in the request header — there is no missing-credential check before
the transport attempt. -/
def hf_generate (prompt hf_token model_id : String)
    (transport : Nat → HTTPRequest → TransportReply) :
    GenResult × List HTTPRequest :=
  hfGenerateWith processBodyHf prompt hf_token model_id transport

/-- The inline `generate` of `src/app.py` lines 18–79 (identical transport
and 503 handling, DialoGPT-aware payload interpretation). -/
def app_generate (prompt hf_token model_id : String)
    (transport : Nat → HTTPRequest → TransportReply) :
    GenResult × List HTTPRequest :=
  hfGenerateWith processBodyApp prompt hf_token model_id transport

/-- `generate` of `src/providers/gemini.py`: an empty API key fails before
any network interaction; otherwise one SDK call is made and a missing/empty
response text raises `GeminiError`.  `respText` stands for the SDK reply
(`none` models a falsy response object or text); the returned count is the
number of network calls performed. -/
def gemini_generate (prompt api_key model_id : String)
    (respText : Option String) : GenResult × Nat :=
  if api_key == "" then (.geminiError "Missing GOOGLE_API_KEY.", 0)
  else
    match respText with
    | none => (.geminiError "Empty response from Gemini.", 1)
    | some t =>
      if t == "" then (.geminiError "Empty response from Gemini.", 1)
      else (.ok (.str (pyStrip t)), 1)

/-!
## Scoring (`src/app.py`, Submit-Quiz block, lines 197–209)
-/

/-- Is the character an uppercase `A`–`D` (the class `[A-D]` of
`re.search(r"[A-D]", ...)`)? -/
def isUpperAD (c : Char) : Bool :=
  decide (65 ≤ c.toNat) && decide (c.toNat ≤ 68)

/-- Is the character a letter `A`–`D` in either case?  (Formalises the
claim's phrase "letter in the range A–D occurring in that line", read
case-insensitively as the code uppercases the line first.) -/
def isLetterAD (c : Char) : Bool :=
  (decide (65 ≤ c.toNat) && decide (c.toNat ≤ 68)) ||
  (decide (97 ≤ c.toNat) && decide (c.toNat ≤ 100))

/-- `correct_letter`: `re.search(r"[A-D]", correct_ans.upper())`, taking the
matched letter, or `""` when there is no match. -/
def extractCorrectLetter (correct_ans : String) : String :=
  match (correct_ans.toList.map pyUpperChar).find? isUpperAD with
  | some c => String.mk [c]
  | none => ""

/-- The per-question comparison of the scoring loop:
`user_ans and user_ans[0].upper() == correct_letter` (`user_ans` may be
`None` when no radio option was selected). -/
def scoreMatch (user_ans : Option String) (correct_ans : String) : Bool :=
  match user_ans with
  | none => false
  | some u =>
    match u.toList with
    | [] => false
    | c :: _ => String.mk [pyUpperChar c] == extractCorrectLetter correct_ans


/-!
## Helper lemmas
-/

/-- `Char.ofNat` of a scalar value below the surrogate range round-trips. -/
theorem toNat_ofNat_lt {n : Nat} (h : n < 55296) : (Char.ofNat n).toNat = n := by
  have hv : n.isValidChar := Or.inl h
  simp [Char.ofNat, hv, Char.ofNatAux, Char.toNat, UInt32.toNat, BitVec.toNat_ofNatLt]

/-- Uppercasing first and testing for `A`–`D` is the same as testing for a
letter `A`–`D` in either case. -/
theorem isUpperAD_pyUpperChar (c : Char) :
    isUpperAD (pyUpperChar c) = isLetterAD c := by
  have hiff : ∀ x y : Bool, (x = true ↔ y = true) → x = y := by
    intro x y h; cases x <;> cases y <;> simp_all
  unfold pyUpperChar isUpperAD isLetterAD
  split
  case isTrue h =>
    simp only [Bool.and_eq_true, decide_eq_true_eq] at h
    rw [toNat_ofNat_lt (by omega)]
    apply hiff
    simp only [Bool.and_eq_true, Bool.or_eq_true, decide_eq_true_eq]
    omega
  case isFalse h =>
    simp only [Bool.and_eq_true, decide_eq_true_eq] at h
    apply hiff
    simp only [Bool.and_eq_true, Bool.or_eq_true, decide_eq_true_eq]
    omega

/-- A Python-whitespace character is not a `[:.-]` marker character. -/
theorem isPyWs_not_punct {c : Char} (h : isPyWs c = true) : isPunctQ c = false := by
  unfold isPyWs at h
  rcases Bool.or_eq_true_iff.mp h with h' | h'
  · rcases Bool.or_eq_true_iff.mp h' with h'' | h''
    · rcases Bool.or_eq_true_iff.mp h'' with h3 | h3
      · rcases Bool.or_eq_true_iff.mp h3 with h4 | h4
        · rcases Bool.or_eq_true_iff.mp h4 with h5 | h5 <;>
            simp only [beq_iff_eq] at h5 <;> subst h5 <;> rfl
        · simp only [beq_iff_eq] at h4; subst h4; rfl
      · simp only [beq_iff_eq] at h3; subst h3; rfl
    · simp only [beq_iff_eq] at h''; subst h''; rfl
  · simp only [beq_iff_eq] at h'; subst h'; rfl

/-- The marker scanner leaves input without marker-closing characters as one
segment appended to the current one. -/
theorem splitQGo_no_punct (cs : List Char) :
    ∀ (acc : List Char) (done : List (List Char)),
      (∀ c ∈ cs, isPunctQ c = false) →
      splitQGo acc done cs = ((acc.reverse ++ cs) :: done).reverse := by
  induction cs with
  | nil => intro acc done _; simp [splitQGo]
  | cons c rest ih =>
    intro acc done h
    have hc : isPunctQ c = false := h c (by simp)
    have hrest : ∀ x ∈ rest, isPunctQ x = false := fun x hx => h x (by simp [hx])
    simp only [splitQGo, hc, Bool.false_eq_true, if_false]
    rw [ih (c :: acc) done hrest]
    simp

/-- Stripping an all-whitespace character list yields the empty list. -/
theorem stripList_all_ws {cs : List Char} (h : ∀ c ∈ cs, isPyWs c = true) :
    stripList cs = [] := by
  unfold stripList
  rw [List.dropWhile_eq_nil_iff.mpr h]
  simp

/-!
## Claim theorems
-/

/-- Claim C3 (confirmed): for raw text whose trimmed form begins with `[` or
`{` and which decodes as JSON, a decoded sequence is returned unchanged
subject to truncation to the requested count, and a decoded object's
`questions` sequence is returned exactly, truncated to the requested count. -/
theorem c3_json_path_truncation (raw : String) (count : Nat) (v : Json)
    (hc : jsonCandidate raw = true) (hd : jsonLoads raw = some v) :
    (∀ es, v = Json.arr es → normalize raw count = some (es.take count)) ∧
    (∀ fs qs, v = Json.obj fs → objGet fs "questions" = some (Json.arr qs) →
      normalize raw count = some (qs.take count)) := by
  constructor
  · intro es hv
    subst hv
    simp [normalize, format_quiz, hc, hd]
  · intro fs qs hv hq
    subst hv
    simp [normalize, format_quiz, hc, hd, hq]

/-- Claim C3 witness: a concrete `{"questions": [...]}` payload is truncated
to the requested count. -/
theorem c3_json_path_witness :
    normalize "\x7b\"questions\": [true, false]\x7d" 1 = some [Json.bool true] :=
  (c3_json_path_truncation "\x7b\"questions\": [true, false]\x7d" 1
      (Json.obj [("questions", Json.arr [Json.bool true, Json.bool false])])
      rfl rfl).2
    [("questions", Json.arr [Json.bool true, Json.bool false])]
    [Json.bool true, Json.bool false] rfl rfl

/-- Claim C6 (confirmed): whenever the normalization pipeline produces a quiz
(either as the spec's `normalize`, or through `create_quiz`'s slicing), its
length is at most the requested count, for every raw text and count ≥ 0. -/
theorem c6_length_le_count (raw : String) (count : Nat) :
    (∀ qs, normalize raw count = some qs → qs.length ≤ count) ∧
    (∀ qs, create_quiz_from_raw raw count = .ok (Json.arr qs) →
      qs.length ≤ count) := by
  constructor
  · intro qs hq
    simp only [normalize] at hq
    generalize hqd : format_quiz raw = q at hq
    cases q <;> simp at hq
    subst hq
    simpa using List.length_take_le count _
  · intro qs hq
    simp only [create_quiz_from_raw] at hq
    generalize hqd : format_quiz raw = q at hq
    by_cases hf : pyFalsy q = true
    · rw [if_pos hf] at hq
      exact absurd hq (by simp)
    · rw [if_neg hf] at hq
      cases q <;> simp at hq
      subst hq
      simpa using List.length_take_le count _

/-- Claim C6 witness: three tolerant-path questions truncated to a requested
count of two. -/
theorem c6_length_le_count_witness :
    ([Json.obj [("question", Json.str "a"), ("options", Json.arr []),
                ("answer", Json.str "Answer: Not provided")],
      Json.obj [("question", Json.str "b"), ("options", Json.arr []),
                ("answer", Json.str "Answer: Not provided")]]).length ≤ 2 :=
  (c6_length_le_count "Q1: a\nQ2: b\nQ3: c" 2).1 _ rfl

/-- Claim C7 (confirmed): on the input `"Q1: What is 2+2?\nA) 3\nB) 4\nAnswer: B"`
with requested count 5, normalization produces exactly one question with text
`"What is 2+2?"`, options `["A) 3", "B) 4"]`, and an answer line containing
`"B"`. -/
theorem c7_concrete_example :
    normalize "Q1: What is 2+2?\nA) 3\nB) 4\nAnswer: B" 5 =
      some [Json.obj [("question", Json.str "What is 2+2?"),
                      ("options", Json.arr [Json.str "A) 3", Json.str "B) 4"]),
                      ("answer", Json.str "Answer: B")]] ∧
    containsSub "B".toList "Answer: B".toList = true :=
  ⟨rfl, rfl⟩

/-- Claim C9 (confirmed): an empty or all-whitespace input normalizes to the
empty sequence (and the model returns, it does not fail). -/
theorem c9_whitespace_empty (s : String) (count : Nat)
    (hws : ∀ c ∈ s.toList, isPyWs c = true) :
    normalize s count = some [] := by
  have hstrip : stripList s.toList = [] := stripList_all_ws hws
  have hcand : jsonCandidate s = false := by
    unfold jsonCandidate
    rw [hstrip]
  have hsplit : splitQ s.toList = [s.toList] := by
    unfold splitQ
    rw [splitQGo_no_punct s.toList [] []
      (fun c hc => isPyWs_not_punct (hws c hc))]
    simp
  have hpart : parsePart s.toList = none := by
    unfold parsePart
    rw [hstrip]
    rfl
  have htol : tolerantParse s = [] := by
    have hpart2 : parsePart s.data = none := hpart
    unfold tolerantParse
    rw [hsplit]
    simp [hpart2]
  simp [normalize, format_quiz, hcand, htol]

/-- Claim C9 witness: a concrete whitespace-only input normalizes to `[]`. -/
theorem c9_whitespace_empty_witness : normalize "  \n " 4 = some [] :=
  c9_whitespace_empty "  \n " 4 (by decide)

/-- Claim C10 (confirmed): the strict JSON path performs no shape validation:
a decoded sequence's elements are returned exactly as decoded, and a decoded
object's `questions` value is returned even when it is not a sequence. -/
theorem c10_no_shape_validation (raw : String) (hc : jsonCandidate raw = true) :
    (∀ es, jsonLoads raw = some (Json.arr es) → format_quiz raw = Json.arr es) ∧
    (∀ fs v, jsonLoads raw = some (Json.obj fs) → objGet fs "questions" = some v →
      format_quiz raw = v) := by
  constructor
  · intro es hd
    simp [format_quiz, hc, hd]
  · intro fs v hd hq
    simp [format_quiz, hc, hd, hq]

/-- Claim C10 witness: non-question-shaped array elements come back verbatim,
and a non-sequence `questions` value is returned as is. -/
theorem c10_no_shape_validation_witness :
    format_quiz "[1, 2]" = Json.arr [Json.num 1, Json.num 2] ∧
    format_quiz "\x7b\"questions\": true\x7d" = Json.bool true :=
  ⟨(c10_no_shape_validation "[1, 2]" rfl).1 [Json.num 1, Json.num 2] rfl,
   (c10_no_shape_validation "\x7b\"questions\": true\x7d" rfl).2
     [("questions", Json.bool true)] (Json.bool true) rfl rfl⟩

/-- Claim C5 counterexample: on input `{"questions": 5}` the normalizer
returns the number 5, which is not a sequence — refuting "returns a (possibly
empty) sequence of questions" for every input. -/
theorem c5_sequence_counterexample :
    format_quiz "\x7b\"questions\": 5\x7d" = Json.num 5 ∧
    (format_quiz "\x7b\"questions\": 5\x7d").isArr = false :=
  ⟨rfl, rfl⟩

/-- Claim C5 (corrected): for every input the normalizer terminates and never
raises; its result is a sequence in every case except when the strict JSON
path returns an object's non-sequence `questions` value (which is returned
as is); and a strict-JSON decode failure falls through silently to the
tolerant pattern path. -/
theorem c5_normalize_total (s : String) :
    ((format_quiz s).isArr = true ∨
      ∃ fs v, jsonLoads s = some (Json.obj fs) ∧ objGet fs "questions" = some v ∧
        v.isArr = false ∧ format_quiz s = v) ∧
    (jsonLoads s = none → format_quiz s = Json.arr (tolerantParse s)) := by
  constructor
  · by_cases hc : jsonCandidate s
    · cases hd : jsonLoads s with
      | none => left; simp [format_quiz, hc, hd, Json.isArr]
      | some v =>
        cases v with
        | arr xs => left; simp [format_quiz, hc, hd, Json.isArr]
        | obj fs =>
          cases hq : objGet fs "questions" with
          | none => left; simp [format_quiz, hc, hd, hq, Json.isArr]
          | some w =>
            cases hw : w.isArr with
            | true =>
              left
              simp [format_quiz, hc, hd, hq, hw]
            | false =>
              right
              exact ⟨fs, w, rfl, hq, hw, by simp [format_quiz, hc, hd, hq]⟩
        | null => left; simp [format_quiz, hc, hd, Json.isArr]
        | bool b => left; simp [format_quiz, hc, hd, Json.isArr]
        | num n => left; simp [format_quiz, hc, hd, Json.isArr]
        | str t => left; simp [format_quiz, hc, hd, Json.isArr]
    · left
      simp [format_quiz, hc, Json.isArr]
  · intro hd
    by_cases hc : jsonCandidate s <;> simp [format_quiz, hc, hd]

/-- Claim C5 witness: a non-JSON input falls through silently to the tolerant
path. -/
theorem c5_normalize_total_witness :
    format_quiz "?" = Json.arr (tolerantParse "?") :=
  (c5_normalize_total "?").2 rfl


/-- Claim C1 counterexample: with a transport that answers 503 twice and then
200 with a valid `generated_text` payload, `generate` does not succeed on a
third attempt — it issues exactly one request and fails immediately with the
"model is loading" `HFError`. -/
theorem c1_retry_counterexample :
    hf_generate "p" "tok" "m"
      (fun n _ => if n < 2 then .response ⟨503, none⟩
        else .response ⟨200,
          some (.arr [.obj [("generated_text", .str "payload")]])⟩) =
    (.hfError "Model is loading. Please try again in unknown seconds.",
     [hfRequest "p" "tok" "m"]) :=
  rfl

/-- Claim C1 (corrected): both Hugging Face `generate` functions make exactly
one transport attempt; a 503 reply makes them fail immediately with
`HFError("Model is loading. Please try again in <est> seconds.")` — there is
no retry, no backoff and no attempt budget. -/
theorem c1_503_no_retry (prompt hf_token model_id : String)
    (transport : Nat → HTTPRequest → TransportReply) (r : HTTPResponse)
    (ht : transport 0 (hfRequest prompt hf_token model_id) = .response r)
    (h503 : r.status = 503) :
    hf_generate prompt hf_token model_id transport =
      (.hfError (hfLoadingMsg r.body), [hfRequest prompt hf_token model_id]) ∧
    app_generate prompt hf_token model_id transport =
      (.hfError (hfLoadingMsg r.body), [hfRequest prompt hf_token model_id]) := by
  constructor <;> simp [hf_generate, app_generate, hfGenerateWith, ht, h503]

/-- Claim C1 witness: the no-retry theorem applied to a concrete transport
that always answers 503 with a non-JSON body. -/
theorem c1_503_no_retry_witness :
    hf_generate "p" "t" "m" (fun _ _ => .response ⟨503, none⟩) =
      (.hfError (hfLoadingMsg none), [hfRequest "p" "t" "m"]) :=
  (c1_503_no_retry "p" "t" "m" (fun _ _ => .response ⟨503, none⟩)
    ⟨503, none⟩ rfl rfl).1

/-- Claim C2 (confirmed): the scoring block's extracted `correct_letter` is
the first letter `A`–`D` (either case, uppercased) occurring in the stored
answer line, and when no such letter occurs the extraction defaults to the
empty string, so the comparison fails for every selection. -/
theorem c2_scoring_first_ad_letter (line : String) :
    extractCorrectLetter line =
      (match line.toList.find? isLetterAD with
       | some c => String.mk [pyUpperChar c]
       | none => "") ∧
    (line.toList.find? isLetterAD = none →
      ∀ sel : Option String, scoreMatch sel line = false) := by
  have hfind : (line.toList.map pyUpperChar).find? isUpperAD =
      (line.toList.find? isLetterAD).map pyUpperChar := by
    rw [List.find?_map]
    have hp : (isUpperAD ∘ pyUpperChar) = isLetterAD := by
      funext c
      exact isUpperAD_pyUpperChar c
    rw [hp]
  constructor
  · unfold extractCorrectLetter
    rw [hfind]
    cases line.toList.find? isLetterAD <;> rfl
  · intro hnone sel
    have hex : extractCorrectLetter line = "" := by
      unfold extractCorrectLetter
      rw [hfind, hnone]
      rfl
    cases sel with
    | none => rfl
    | some u =>
      have hred : scoreMatch (some u) line =
          (match u.data with
           | [] => false
           | c :: _ => String.mk [pyUpperChar c] == extractCorrectLetter line) :=
        rfl
      rw [hred, hex]
      cases hd : u.data with
      | nil => rfl
      | cons c rest =>
        have hne : String.mk [pyUpperChar c] ≠ "" := by
          intro hmk
          have h2 := congrArg String.data hmk
          simp at h2
        simp [hne]

/-- Claim C2 witness: an answer line without any `A`–`D` letter matches no
selection. -/
theorem c2_scoring_witness :
    scoreMatch (some "A) first option") "truly unknown" = false :=
  (c2_scoring_first_ad_letter "truly unknown").2 rfl (some "A) first option")

/-- Claim C4 counterexample: the Hugging Face `generate` performs its network
request even when the credential is empty — the request list is non-empty and
the call even succeeds, instead of failing immediately with a missing-credential
`BackendError` before any network call. -/
theorem c4_missing_credential_counterexample :
    hf_generate "p" "" "m"
      (fun _ _ => .response ⟨200,
        some (.arr [.obj [("generated_text", .str "txt")]])⟩) =
    (.ok (.str "txt"), [hfRequest "p" "" "m"]) :=
  rfl

/-- Claim C4 (corrected): the Gemini provider fails immediately on an empty
credential with `GeminiError("Missing GOOGLE_API_KEY.")` and zero network
calls, but the Hugging Face provider has no credential check at all: it
issues exactly one request whatever the token (the empty token travels in the
`Authorization` header). -/
theorem c4_credential_handling (prompt model_id : String)
    (respText : Option String) (prompt2 hf_token model_id2 : String)
    (transport : Nat → HTTPRequest → TransportReply) :
    gemini_generate prompt "" model_id respText =
      (.geminiError "Missing GOOGLE_API_KEY.", 0) ∧
    (hf_generate prompt2 hf_token model_id2 transport).2 =
      [hfRequest prompt2 hf_token model_id2] :=
  ⟨rfl, rfl⟩

/-- Claim C8 counterexample: when normalization produces zero questions the
degraded outcome is raised as an exception — `create_quiz` raises
`HFError("AI-generated quiz was empty or invalid.")`. -/
theorem c8_exception_counterexample :
    create_quiz_from_raw "" 5 =
      .hfError "AI-generated quiz was empty or invalid." :=
  rfl

/-- Claim C8 (corrected): a non-empty quiz shorter than requested propagates
as-is (no error), while an empty quiz raises `HFError`, which the
orchestrator catches and renders as a user-visible error message rather than
crashing. -/
theorem c8_degraded_output (raw : String) (n : Nat) :
    (∀ qs, format_quiz raw = Json.arr qs → qs ≠ [] →
      create_quiz_from_raw raw n = .ok (Json.arr (qs.take n))) ∧
    (format_quiz raw = Json.arr [] →
      generate_action raw n =
        .errorShown
          "❌ Failed to generate quiz: AI-generated quiz was empty or invalid.") := by
  constructor
  · intro qs hq hne
    cases qs with
    | nil => exact absurd rfl hne
    | cons x rest => simp [create_quiz_from_raw, hq, pyFalsy]
  · intro hq
    simp [generate_action, create_quiz_from_raw, hq, pyFalsy]

/-- Claim C8 witness: a one-question tolerant parse survives a request for
three questions, and a whitespace-only raw text ends in the rendered error
message. -/
theorem c8_degraded_output_witness :
    create_quiz_from_raw "hello" 3 =
      .ok (Json.arr
        ([Json.obj [("question", Json.str "hello"), ("options", Json.arr []),
                    ("answer", Json.str "Answer: Not provided")]].take 3)) ∧
    generate_action " " 3 =
      .errorShown
        "❌ Failed to generate quiz: AI-generated quiz was empty or invalid." :=
  ⟨(c8_degraded_output "hello" 3).1
      [Json.obj [("question", Json.str "hello"), ("options", Json.arr []),
                 ("answer", Json.str "Answer: Not provided")]]
      rfl (by simp),
   (c8_degraded_output " " 3).2 rfl⟩

end QuizGen
